import Mathlib

set_option maxRecDepth 8192

/-!
A shallow embedding of the JSONW combinator engine (src/jsonw.c) and of the
whole-document validity check of its test driver (src/test.c).

Modelling conventions:
* The input text is the contents of a NUL-terminated byte buffer, modelled as
  a `List Nat` of byte values; the terminator is implicit: reading at or past
  the end of the list yields byte 0, exactly as the C code reads the
  terminator of the caller's buffer.
* A cursor (`char *json` in C) is a byte offset into the buffer; the failure
  sentinel `NULL` is `none`, so cursors are `Option Nat`.
* Loops whose termination depends on the cursor advancing are written with an
  explicit fuel argument so that every definition is structurally recursive
  and evaluates by kernel reduction.  The fuel supplied at the public entry
  points (`t.length + 1` for byte-scanning loops, and per function below) is
  larger than the number of iterations any input can drive, because every
  iteration of every loop in the source advances the cursor by at least one
  byte and no parser moves the cursor past the terminator.
* IEEE double arithmetic in `jsonw_number` is modelled exactly: every
  operation the source performs on its `significand` is integer accumulation
  or a multiplication/division by 10, so the value is carried as an integer
  numerator with a power-of-ten denominator (`Int × Nat`), never normalized.
  `fracVal` maps that pair to the rational it denotes.
* An out parameter that the source writes only on some paths is modelled by
  making the function return the store event explicitly (for `jsonw_array`
  and `jsonw_object`, `Option Nat`: `none` when the source returns without
  storing to `*len`), and by `..._st` state-passing variants that take the
  pointee's prior value and return its value after the call.
-/

/-- The byte at offset `i` of the buffer `t`; 0 (the NUL terminator) at or
past the end, as in the C code's NUL-terminated buffer. -/
def byteAt (t : List Nat) (i : Nat) : Nat := t.getD i 0

/-- The bytes of a string literal, for writing concrete test inputs. -/
def str (s : String) : List Nat := s.data.map Char.toNat

/-- jsonw_litchr: succeed iff the byte at the cursor is `chr`, advancing by
one; `NULL` (`none`) propagates. -/
def jsonw_litchr (chr : Nat) (t : List Nat) (json : Option Nat) : Option Nat :=
  match json with
  | none => none
  | some i => if byteAt t i = chr then some (i + 1) else none

/-- `strncmp(json, str, strlen(str)) == 0` of jsonw_litstr: `s` is a byte-wise
prefix of the buffer at offset `i` (a NUL in the buffer mismatches any
non-NUL byte of `s`, stopping the comparison exactly as strncmp does). -/
def strncmpEq (t : List Nat) : List Nat → Nat → Bool
  | [], _ => true
  | c :: cs, i => (byteAt t i == c) && strncmpEq t cs (i + 1)

/-- jsonw_litstr: succeed iff `s` is a prefix of the text at the cursor,
advancing by `s.length`. -/
def jsonw_litstr (s : List Nat) (t : List Nat) (json : Option Nat) : Option Nat :=
  match json with
  | none => none
  | some i => if strncmpEq t s i then some (i + s.length) else none

/-- The whitespace set of jsonw_ws: space, tab, newline, carriage return.
The source's loop condition is `*json && strchr(" \t\n\r", *json)`; the
`*json` test only excludes the NUL terminator, which this set excludes
already, so the two conditions agree. -/
def isWsByte (c : Nat) : Bool := c == 32 || c == 9 || c == 10 || c == 13

/-- The loop of jsonw_ws, with fuel. -/
def skipWsF (t : List Nat) : Nat → Nat → Nat
  | 0, i => i
  | f + 1, i => if isWsByte (byteAt t i) then skipWsF t f (i + 1) else i

/-- jsonw_ws on a non-NULL cursor: skip a run of whitespace bytes.  Fuel
`t.length + 1` exceeds the longest possible run from any offset. -/
def skipWs (t : List Nat) (i : Nat) : Nat := skipWsF t (t.length + 1) i

/-- jsonw_ws: whitespace skipping; `NULL` propagates. -/
def jsonw_ws (t : List Nat) (json : Option Nat) : Option Nat := json.map (skipWs t)

/-- The WSCHRWS macro: skip whitespace, match one literal byte, skip
whitespace again. -/
def wschrws (chr : Nat) (t : List Nat) (json : Option Nat) : Option Nat :=
  jsonw_ws t (jsonw_litchr chr t (jsonw_ws t json))

/-- jsonw_beginarr: structural token `[` with surrounding whitespace. -/
def jsonw_beginarr (t : List Nat) (json : Option Nat) : Option Nat := wschrws 91 t json

/-- jsonw_endarr: structural token `]` with surrounding whitespace. -/
def jsonw_endarr (t : List Nat) (json : Option Nat) : Option Nat := wschrws 93 t json

/-- jsonw_beginobj: structural token `{` with surrounding whitespace. -/
def jsonw_beginobj (t : List Nat) (json : Option Nat) : Option Nat := wschrws 123 t json

/-- jsonw_endobj: structural token `}` with surrounding whitespace. -/
def jsonw_endobj (t : List Nat) (json : Option Nat) : Option Nat := wschrws 125 t json

/-- jsonw_namesep: structural token `:` with surrounding whitespace. -/
def jsonw_namesep (t : List Nat) (json : Option Nat) : Option Nat := wschrws 58 t json

/-- jsonw_valuesep: structural token `,` with surrounding whitespace. -/
def jsonw_valuesep (t : List Nat) (json : Option Nat) : Option Nat := wschrws 44 t json

/-- jsonw_beginstr: a bare `"` with no whitespace skip. -/
def jsonw_beginstr (t : List Nat) (json : Option Nat) : Option Nat := jsonw_litchr 34 t json

/-- jsonw_endstr: a bare `"` with no whitespace skip. -/
def jsonw_endstr (t : List Nat) (json : Option Nat) : Option Nat := jsonw_litchr 34 t json

/-- jsonw_null: the literal `null`. -/
def jsonw_null (t : List Nat) (json : Option Nat) : Option Nat :=
  jsonw_litstr (str ("null")) t json

/-- jsonw_boolean, value-returning view: `true` sets the out value to true,
else `false` sets it to false; the source stores to `*b` only in the
alternative that matched. -/
def jsonw_boolean (t : List Nat) (json : Option Nat) : Option (Nat × Bool) :=
  match jsonw_litstr (str ("true")) t json with
  | some j => some (j, true)
  | none =>
    match jsonw_litstr (str ("false")) t json with
    | some j => some (j, false)
    | none => none

/-- isdigit of ctype.h in the C locale, on a byte. -/
def isDigitByte (c : Nat) : Bool := Nat.ble 48 c && Nat.ble c 57

/-- The DIGIT_PLUS loop of jsonw_number accumulating into the double
`significand`: while the byte is a digit, `acc = acc*10 + digit` (exact
integer arithmetic, see the header comment), with fuel. -/
def digitRunIF (t : List Nat) : Nat → Nat → Int → Nat × Int
  | 0, i, acc => (i, acc)
  | f + 1, i, acc =>
    if isDigitByte (byteAt t i) then
      digitRunIF t f (i + 1) (acc * 10 + ((byteAt t i - 48 : Nat) : Int))
    else (i, acc)

/-- The DIGIT_PLUS loop of jsonw_number accumulating into the
`unsigned short exponent`: arithmetic is modulo 2^16, with fuel. -/
def digitRunUSF (t : List Nat) : Nat → Nat → Nat → Nat × Nat
  | 0, i, acc => (i, acc)
  | f + 1, i, acc =>
    if isDigitByte (byteAt t i) then
      digitRunUSF t f (i + 1) ((acc * 10 + (byteAt t i - 48)) % 65536)
    else (i, acc)

/-- The `(short)exponent` conversion of jsonw_number: reinterpret a 16-bit
unsigned bit pattern as a signed value. -/
def toShort (e : Nat) : Int := if e < 32768 then (e : Int) else (e : Int) - 65536

/-- The two scaling loops at the end of jsonw_number: while the exponent read
as a short is positive, multiply the significand by 10 and decrement it
(modulo 2^16); while negative, divide by 10 and increment it.  The
significand is an exact fraction: multiplication scales the numerator,
division scales the denominator.  Fuel 65536 covers the at most 32768
iterations either loop can make. -/
def scaleLoopF : Nat → Int × Nat → Nat → Int × Nat
  | 0, sig, _ => sig
  | f + 1, sig, e =>
    if 0 < toShort e then scaleLoopF f (sig.1 * 10, sig.2) ((e + 65535) % 65536)
    else if toShort e < 0 then scaleLoopF f (sig.1, sig.2 * 10) ((e + 1) % 65536)
    else sig

/-- The rational a numerator/denominator pair denotes; the exact value the
source's `double significand` holds for inputs without precision loss. -/
def fracVal (p : Int × Nat) : ℚ := (p.1 : ℚ) / (p.2 : ℚ)

/-- jsonw_number, value-returning view.  Follows the source line by line:
optional minus sign; integer part (a single `0`, or a mandatory digit run);
optional fractional part (`.` with a mandatory digit run continuing the same
significand accumulator, its length recorded in the unsigned short `shift`);
optional exponent part (`e`/`E`, optional sign, mandatory digit run into the
unsigned short `exponent`, negated modulo 2^16 when the sign was `-`); then
`exponent -= shift` modulo 2^16 and the scaling loops.  Any missing mandatory
digit run fails the whole production, and `*num` is stored only at the single
success return. -/
def jsonw_number (t : List Nat) (json : Option Nat) : Option (Nat × (Int × Nat)) :=
  match json with
  | none => none
  | some i0 =>
    let neg := byteAt t i0 = 45
    let i1 := if byteAt t i0 = 45 then i0 + 1 else i0
    let intPart : Option (Nat × Int) :=
      if byteAt t i1 = 48 then some (i1 + 1, 0)
      else if isDigitByte (byteAt t i1) then some (digitRunIF t (t.length + 1) i1 0)
      else none
    match intPart with
    | none => none
    | some (i2, sig1) =>
      let fracPart : Option (Nat × Int × Nat) :=
        if byteAt t i2 = 46 then
          if isDigitByte (byteAt t (i2 + 1)) then
            let r := digitRunIF t (t.length + 1) (i2 + 1) sig1
            some (r.1, r.2, (r.1 - (i2 + 1)) % 65536)
          else none
        else some (i2, sig1, 0)
      match fracPart with
      | none => none
      | some (i3, sig2, shift) =>
        let expPart : Option (Nat × Nat) :=
          if byteAt t i3 = 101 ∨ byteAt t i3 = 69 then
            if byteAt t (i3 + 1) = 45 then
              if isDigitByte (byteAt t (i3 + 2)) then
                let r := digitRunUSF t (t.length + 1) (i3 + 2) 0
                some (r.1, (65536 - r.2) % 65536)
              else none
            else
              let ie := if byteAt t (i3 + 1) = 43 then i3 + 2 else i3 + 1
              if isDigitByte (byteAt t ie) then some (digitRunUSF t (t.length + 1) ie 0)
              else none
          else some (i3, 0)
        match expPart with
        | none => none
        | some (i4, expo) =>
          let expo2 := (expo + (65536 - shift)) % 65536
          let signedSig : Int := if neg then -sig2 else sig2
          some (i4, scaleLoopF 65536 (signedSig, 1) expo2)

/-- The hexadecimal digit value used by the `\"\\u\"` arm of jsonw_character:
isdigit, else isxdigit via `tolower(c) - 'a' + 10`, else failure. -/
def hexVal (c : Nat) : Option Nat :=
  if isDigitByte c then some (c - 48)
  else if 97 ≤ c ∧ c ≤ 102 then some (c - 97 + 10)
  else if 65 ≤ c ∧ c ≤ 70 then some (c - 65 + 10)
  else none

/-- jsonw_character, value-returning view: decode one logical character of a
string body.  A backslash dispatches on the next byte (`\"`, `\\`, `/`
literal; `b f n r t` control characters; `u` plus exactly four hex digits
forming a 16-bit code point, decoded to itself when at most 0x7f and to the
sentinel byte 0 otherwise; anything else fails).  Without a backslash, any
raw byte at least 0x20 other than `\"` passes through; anything else fails.
`*chr` is stored exactly on the success returns. -/
def jsonw_character (t : List Nat) (json : Option Nat) : Option (Nat × Nat) :=
  match json with
  | none => none
  | some i =>
    if byteAt t i = 92 then
      let c := byteAt t (i + 1)
      if c = 34 ∨ c = 92 ∨ c = 47 then some (i + 2, c)
      else if c = 98 then some (i + 2, 8)
      else if c = 102 then some (i + 2, 12)
      else if c = 110 then some (i + 2, 10)
      else if c = 114 then some (i + 2, 13)
      else if c = 116 then some (i + 2, 9)
      else if c = 117 then
        match hexVal (byteAt t (i + 2)), hexVal (byteAt t (i + 3)),
            hexVal (byteAt t (i + 4)), hexVal (byteAt t (i + 5)) with
        | some h1, some h2, some h3, some h4 =>
          let cp := (((h1 * 16 + h2) * 16 + h3) * 16 + h4) % 65536
          some (i + 6, if cp ≤ 127 then cp else 0)
        | _, _, _, _ => none
      else none
    else if 32 ≤ byteAt t i ∧ byteAt t i ≠ 34 then some (i + 1, byteAt t i)
    else none

/-- The character loop of jsonw_string: repeat jsonw_character until it
fails, counting successes; returns the cursor after the last success and the
count, with fuel (each success advances the cursor). -/
def charRunF (t : List Nat) : Nat → Nat → Nat → Nat × Nat
  | 0, i, n => (i, n)
  | f + 1, i, n =>
    match jsonw_character t (some i) with
    | some (j, _) => charRunF t f j (n + 1)
    | none => (i, n)

/-- jsonw_string, value-returning view: begin quote, character run, end
quote; the length stored is the count of decoded characters.  The source
counts in a local and stores to `*len` only at the success return. -/
def jsonw_string (t : List Nat) (json : Option Nat) : Option (Nat × Nat) :=
  match jsonw_beginstr t json with
  | none => none
  | some i =>
    let r := charRunF t (t.length + 1) i 0
    match jsonw_endstr t (some r.1) with
    | none => none
    | some k => some (k, r.2)

/-- jsonw_name: a string (length discarded) followed by the `:` separator. -/
def jsonw_name (t : List Nat) (json : Option Nat) : Option Nat :=
  jsonw_namesep t ((jsonw_string t json).map Prod.fst)

/-- The value kind tags of jsonw_ty. -/
inductive JsonwTy : Type where
  | null
  | boolean
  | number
  | string
  | array
  | object
deriving DecidableEq, Repr

/-- jsonw_primitive, value-returning view: try `null`, `boolean`, `number`,
`string` in order; the kind of the first success is stored, each alternative
storing `*type` only when it matched (sub-out-parameters are passed NULL). -/
def jsonw_primitive (t : List Nat) (json : Option Nat) : Option (Nat × JsonwTy) :=
  match jsonw_null t json with
  | some j => some (j, JsonwTy.null)
  | none =>
    match jsonw_boolean t json with
    | some (j, _) => some (j, JsonwTy.boolean)
    | none =>
      match jsonw_number t json with
      | some (j, _) => some (j, JsonwTy.number)
      | none =>
        match jsonw_string t json with
        | some (j, _) => some (j, JsonwTy.string)
        | none => none

/-- The for loop of jsonw_array, abstracted over the value parser `val` (the
source calls jsonw_value with a NULL out parameter): parse a value; if
end_array follows, return it storing `*len = length` (the store event is the
`some length`); otherwise consume a value separator, bump `length`, repeat.
A failed value parse fails the array. -/
def arrLoopGo (val : Option Nat → Option Nat) (t : List Nat) :
    Nat → Option Nat → Nat → Option (Nat × Option Nat)
  | 0, _, _ => none
  | f + 1, json, length =>
    match val json with
    | none => none
    | some j =>
      match jsonw_endarr t (some j) with
      | some k => some (k, some length)
      | none => arrLoopGo val t f (jsonw_valuesep t (some j)) (length + 1)

/-- The for loop of jsonw_object: like the array loop but each entry is a
name followed by a value, and the success return stores nothing to `*len`
(the source's `return j;` discards the `length` local it counted). -/
def objLoopGo (val : Option Nat → Option Nat) (t : List Nat) :
    Nat → Option Nat → Nat → Option (Nat × Option Nat)
  | 0, _, _ => none
  | f + 1, json, length =>
    match val (jsonw_name t json) with
    | none => none
    | some j =>
      match jsonw_endobj t (some j) with
      | some k => some (k, none)
      | none => objLoopGo val t f (jsonw_valuesep t (some j)) (length + 1)

/-- jsonw_array, abstracted over the value parser: begin_array, then an
immediate end_array returns without storing to `*len` (the empty-array early
return), else the element loop.  A NULL cursor flows through begin/end into
the loop's value parse and fails there, as in the source. -/
def arrayGo (val : Option Nat → Option Nat) (t : List Nat) (f : Nat) (json : Option Nat) :
    Option (Nat × Option Nat) :=
  let json1 := jsonw_beginarr t json
  match jsonw_endarr t json1 with
  | some k => some (k, none)
  | none => arrLoopGo val t f json1 0

/-- jsonw_object, abstracted over the value parser: begin_object, then an
immediate end_object returns without storing, else the member loop. -/
def objectGo (val : Option Nat → Option Nat) (t : List Nat) (f : Nat) (json : Option Nat) :
    Option (Nat × Option Nat) :=
  let json1 := jsonw_beginobj t json
  match jsonw_endobj t json1 with
  | some k => some (k, none)
  | none => objLoopGo val t f json1 0

/-- jsonw_value with fuel: NULL fails; else jsonw_primitive, and on its
failure jsonw_structured, which is jsonw_array then jsonw_object, tagging the
kind of the successful alternative.  One unit of fuel is spent per nesting
level; every nesting level consumes at least one byte, so fuel `t.length + 1`
is enough for every input. -/
def valueF : Nat → List Nat → Option Nat → Option (Nat × JsonwTy)
  | 0, _, _ => none
  | f + 1, t, json =>
    match json with
    | none => none
    | some i =>
      match jsonw_primitive t (some i) with
      | some r => some r
      | none =>
        match arrayGo (fun j => (valueF f t j).map Prod.fst) t f (some i) with
        | some (j, _) => some (j, JsonwTy.array)
        | none =>
          match objectGo (fun j => (valueF f t j).map Prod.fst) t f (some i) with
          | some (j, _) => some (j, JsonwTy.object)
          | none => none

/-- The fuel supplied to the recursive grammar at a public entry point. -/
def fuelFor (t : List Nat) : Nat := t.length + 1

/-- jsonw_value, value-returning view. -/
def jsonw_value (t : List Nat) (json : Option Nat) : Option (Nat × JsonwTy) :=
  valueF (fuelFor t) t json

/-- jsonw_value called with a NULL out parameter, as the loops and
jsonw_element call it: only the cursor. -/
def valCursor (t : List Nat) (json : Option Nat) : Option Nat :=
  (jsonw_value t json).map Prod.fst

/-- jsonw_array, value-returning view: the second component is the store
event on `*len` (`none` when the source returns without storing). -/
def jsonw_array (t : List Nat) (json : Option Nat) : Option (Nat × Option Nat) :=
  arrayGo (valCursor t) t (fuelFor t) json

/-- jsonw_object, value-returning view: the second component is the store
event on `*len`, which the source never performs. -/
def jsonw_object (t : List Nat) (json : Option Nat) : Option (Nat × Option Nat) :=
  objectGo (valCursor t) t (fuelFor t) json

/-- jsonw_element: one value followed by a value separator. -/
def jsonw_element (t : List Nat) (json : Option Nat) : Option Nat :=
  jsonw_valuesep t (valCursor t json)

/-- jsonw_member: a name followed by an element. -/
def jsonw_member (t : List Nat) (json : Option Nat) : Option Nat :=
  jsonw_element t (jsonw_name t json)

/-- jsonw_text: leading whitespace, one value, trailing whitespace. -/
def jsonw_text (t : List Nat) (json : Option Nat) : Option (Nat × JsonwTy) :=
  (jsonw_value t (jsonw_ws t json)).map (fun r => (skipWs t r.1, r.2))

/-- Whole-document validity as src/test.c computes it: `end = jsonw_text(NULL,
buf)` succeeds and `end - buf == size`, the returned cursor is exactly the
input's end. -/
def jsonw_valid (t : List Nat) : Bool :=
  match jsonw_text t (some 0) with
  | some (p, _) => p == t.length
  | none => false

/-- The do-while loop of jsonw_strcmp.  Each iteration sets `c` to 0, lets
jsonw_character overwrite it on success (on failure the cursor becomes NULL
and `c` stays 0), then continues while the key byte is non-NUL and equal to
`c`.  The result is `*str - c` at exit.  The key is a C string, modelled
NUL-free: its terminator is the end of the list. -/
def strcmpLoop (t : List Nat) : List Nat → Option Nat → Int
  | [], json =>
    match jsonw_character t json with
    | some (_, ch) => 0 - (ch : Int)
    | none => 0
  | a :: rest, json =>
    match jsonw_character t json with
    | some (j, ch) => if a = ch then strcmpLoop t rest (some j) else (a : Int) - (ch : Int)
    | none => (a : Int)

/-- jsonw_strcmp: compare a raw key against the decoded characters of the
text at the cursor; 0 means equal. -/
def jsonw_strcmp (t : List Nat) (s : List Nat) (json : Option Nat) : Int :=
  strcmpLoop t s json

/-- jsonw_index: apply jsonw_element `idx` times. -/
def jsonw_index (t : List Nat) : Nat → Option Nat → Option Nat
  | 0, json => json
  | n + 1, json => jsonw_index t n (jsonw_element t json)

/-- The do-while loop of jsonw_find: if the key compares equal to the string
at the cursor (after its opening quote), break returning the cursor
unchanged; else advance over one member, failing when that fails.  Fuel:
every member consumes at least one byte. -/
def findLoopF (t : List Nat) (name : List Nat) : Nat → Option Nat → Option Nat
  | 0, _ => none
  | f + 1, json =>
    if jsonw_strcmp t name (jsonw_beginstr t json) = 0 then json
    else
      match jsonw_member t json with
      | none => none
      | some j => findLoopF t name f (some j)

/-- jsonw_find: scan members for the first whose key equals `name`. -/
def jsonw_find (t : List Nat) (name : List Nat) (json : Option Nat) : Option Nat :=
  findLoopF t name (t.length + 1) json

/-- jsonw_lookup: find the member, then skip its name (string and `:`),
landing on its value. -/
def jsonw_lookup (t : List Nat) (name : List Nat) (json : Option Nat) : Option Nat :=
  jsonw_name t (jsonw_find t name json)

/-- The for loop of jsonw_unescape.  `rem` is the value of `len` at the top
of an iteration: the loop first decrements it and stops at zero; otherwise it
decodes one character, stops on failure, else stores the byte and repeats.
The terminating 0 byte is stored after the loop.  Returns the bytes stored to
the buffer, in order, and the cursor after the last character consumed.
(The `rem = 0` arm totalizes the model; the source's contract, `len` strictly
positive, never reaches it.) -/
def unescLoop (t : List Nat) : Nat → Nat → List Nat × Nat
  | 0, j => ([0], j)
  | 1, j => ([0], j)
  | r + 2, j =>
    match jsonw_character t (some j) with
    | none => ([0], j)
    | some (j2, c) =>
      let u := unescLoop t (r + 1) j2
      (c :: u.1, u.2)

/-- jsonw_unescape: decode successive characters into a buffer of capacity
`len`, storing at most `len - 1` decoded bytes plus a terminating 0 byte;
returns the bytes stored and the cursor after the last character consumed. -/
def jsonw_unescape (t : List Nat) (len : Nat) (json : Nat) : List Nat × Nat :=
  unescLoop t len json

/-- jsonw_boolean as the caller sees its out parameter: the pointee before
the call flows to the pointee after.  Stores happen exactly where the source
stores: in the alternative that matched, never on failure. -/
def jsonw_boolean_st (t : List Nat) (json : Option Nat) (b : Bool) : Option Nat × Bool :=
  match jsonw_litstr (str ("true")) t json with
  | some j => (some j, true)
  | none =>
    match jsonw_litstr (str ("false")) t json with
    | some j => (some j, false)
    | none => (none, b)

/-- jsonw_number's out parameter: the source stores to `*num` only at its
single success return. -/
def jsonw_number_st (t : List Nat) (json : Option Nat) (num : Int × Nat) :
    Option Nat × (Int × Nat) :=
  match jsonw_number t json with
  | some (j, v) => (some j, v)
  | none => (none, num)

/-- jsonw_string's out parameter: the source counts in a local and stores to
`*len` only at its success return. -/
def jsonw_string_st (t : List Nat) (json : Option Nat) (len : Nat) : Option Nat × Nat :=
  match jsonw_string t json with
  | some (j, v) => (some j, v)
  | none => (none, len)

/-- jsonw_array's out parameter: stored exactly when the success carried a
store event; the empty-array return and the failure return leave it alone. -/
def jsonw_array_st (t : List Nat) (json : Option Nat) (len : Nat) : Option Nat × Nat :=
  match jsonw_array t json with
  | some (j, some n) => (some j, n)
  | some (j, none) => (some j, len)
  | none => (none, len)

/-- jsonw_object's out parameter: the source never stores to it. -/
def jsonw_object_st (t : List Nat) (json : Option Nat) (len : Nat) : Option Nat × Nat :=
  match jsonw_object t json with
  | some (j, some n) => (some j, n)
  | some (j, none) => (some j, len)
  | none => (none, len)

/-- jsonw_value's out parameter: jsonw_primitive and jsonw_structured store
the kind exactly when their alternative matched, so `*type` is written
exactly on overall success. -/
def jsonw_value_st (t : List Nat) (json : Option Nat) (ty : JsonwTy) :
    Option Nat × JsonwTy :=
  match jsonw_value t json with
  | some (j, k) => (some j, k)
  | none => (none, ty)

/-- Reading at or past the end of the buffer yields the NUL terminator. -/
theorem byteAt_of_le (t : List Nat) (i : Nat) (h : t.length ≤ i) : byteAt t i = 0 := by
  unfold byteAt List.getD
  rw [List.get?_eq_none.mpr h]
  rfl

/-- A whitespace byte is never the NUL terminator. -/
theorem isWsByte_ne_zero (c : Nat) (h : isWsByte c = true) : c ≠ 0 := by
  simp only [isWsByte, Bool.or_eq_true, beq_iff_eq] at h
  omega

/-- With fuel at least the remaining length, the whitespace loop stops on a
non-whitespace byte. -/
theorem skipWsF_isWs_false (t : List Nat) :
    ∀ f i, t.length ≤ i + f → isWsByte (byteAt t (skipWsF t f i)) = false := by
  intro f
  induction f with
  | zero =>
    intro i h
    have hz : byteAt t i = 0 := byteAt_of_le t i (by omega)
    simp [skipWsF, hz, isWsByte]
  | succ f ih =>
    intro i h
    cases hw : isWsByte (byteAt t i) with
    | false => simp [skipWsF, hw]
    | true =>
      rw [skipWsF, if_pos hw]
      exact ih (i + 1) (by omega)

/-- The whitespace loop is the identity on a cursor not at whitespace. -/
theorem skipWsF_of_not_ws (t : List Nat) (f i : Nat) (h : isWsByte (byteAt t i) = false) :
    skipWsF t f i = i := by
  cases f with
  | zero => rfl
  | succ f => simp [skipWsF, h]

/-- jsonw_ws always stops on a non-whitespace byte. -/
theorem skipWs_isWs_false (t : List Nat) (i : Nat) :
    isWsByte (byteAt t (skipWs t i)) = false :=
  skipWsF_isWs_false t (t.length + 1) i (by omega)

/-- Skipping whitespace twice from an offset is skipping it once. -/
theorem skipWs_skipWs (t : List Nat) (i : Nat) : skipWs t (skipWs t i) = skipWs t i :=
  skipWsF_of_not_ws t (t.length + 1) (skipWs t i) (skipWs_isWs_false t i)

/-- The bytes jsonw_unescape stores are some decoded bytes followed by the
terminating 0 byte, and the decoded bytes number at most `len - 1`. -/
theorem unescLoop_shape (t : List Nat) :
    ∀ len j, ∃ ys, (unescLoop t len j).1 = ys ++ [0] ∧ ys.length ≤ len - 1 := by
  intro len
  induction len using Nat.strong_induction_on with
  | _ len ih =>
    match len with
    | 0 => exact fun j => ⟨[], rfl, by simp⟩
    | 1 => exact fun j => ⟨[], rfl, by simp⟩
    | r + 2 =>
      intro j
      rcases h : jsonw_character t (some j) with _ | ⟨j2, c⟩
      · exact ⟨[], by simp [unescLoop, h], by simp⟩
      · obtain ⟨ys, hys, hlen⟩ := ih (r + 1) (by omega) j2
        refine ⟨c :: ys, by simp [unescLoop, h, hys], ?_⟩
        simp only [List.length_cons]
        omega

/-- C1: jsonw_array on `[]` and jsonw_object on `\x7b\x7d` succeed but return
without storing to the length out parameter (store event `none`); jsonw_array
on `[1,2,3]` succeeds storing 2, one less than the element count; and
jsonw_object never stores the member count it tallies.  The `_st` forms show
a caller's pointee (here 99) after each call.  This contradicts the claimed
counts 0, 0, 3, 2: the code computes the lengths but fails to report them. -/
theorem C1_len_out_param_eval :
    jsonw_array (str ("[]")) (some 0) = some (2, none)
    ∧ jsonw_object (str ("\x7b\x7d")) (some 0) = some (2, none)
    ∧ jsonw_array (str ("[1,2,3]")) (some 0) = some (7, some 2)
    ∧ jsonw_object (str ("\x7b\"a\":1,\"b\":2\x7d")) (some 0) = some (13, none)
    ∧ jsonw_array_st (str ("[1,2,3]")) (some 0) 99 = (some 7, 2)
    ∧ jsonw_array_st (str ("[]")) (some 0) 99 = (some 2, 99)
    ∧ jsonw_object_st (str ("\x7b\"a\":1,\"b\":2\x7d")) (some 0) 99 = (some 13, 99) := by
  decide

/-- C2: a document is valid exactly when jsonw_text succeeds and its cursor
is the input's end; the input `1 2` is invalid (jsonw_text returns cursor 2,
strictly before the end, 3) even though its prefix `1` parses as a value and
the one-byte document `1` is valid. -/
theorem C2_full_consumption :
    (∀ t : List Nat, jsonw_valid t = true ↔ ∃ k, jsonw_text t (some 0) = some (t.length, k))
    ∧ jsonw_valid (str ("1 2")) = false
    ∧ jsonw_text (str ("1 2")) (some 0) = some (2, JsonwTy.number)
    ∧ 2 < (str ("1 2")).length
    ∧ jsonw_value (str ("1 2")) (some 0) = some (1, JsonwTy.number)
    ∧ jsonw_valid (str ("1")) = true := by
  refine ⟨?_, by decide, by decide, by decide, by decide, by decide⟩
  intro t
  rcases h : jsonw_text t (some 0) with _ | ⟨p, k⟩ <;> simp [jsonw_valid, h]

/-- C3: every combinator with a decoded-output out parameter leaves the
pointee untouched when it fails: the state-passing views return the prior
pointee value whenever the returned cursor is the failure sentinel. -/
theorem C3_failure_leaves_out_params (t : List Nat) (json : Option Nat) (b : Bool)
    (num : Int × Nat) (n m1 m2 : Nat) (ty : JsonwTy) :
    ((jsonw_boolean_st t json b).1 = none → (jsonw_boolean_st t json b).2 = b)
    ∧ ((jsonw_number_st t json num).1 = none → (jsonw_number_st t json num).2 = num)
    ∧ ((jsonw_string_st t json n).1 = none → (jsonw_string_st t json n).2 = n)
    ∧ ((jsonw_array_st t json m1).1 = none → (jsonw_array_st t json m1).2 = m1)
    ∧ ((jsonw_object_st t json m2).1 = none → (jsonw_object_st t json m2).2 = m2)
    ∧ ((jsonw_value_st t json ty).1 = none → (jsonw_value_st t json ty).2 = ty) := by
  refine ⟨?_, ?_, ?_, ?_, ?_, ?_⟩
  · rcases h1 : jsonw_litstr (str ("true")) t json with _ | j
    · rcases h2 : jsonw_litstr (str ("false")) t json with _ | j <;>
        simp [jsonw_boolean_st, h1, h2]
    · simp [jsonw_boolean_st, h1]
  · rcases h : jsonw_number t json with _ | ⟨j, v⟩ <;> simp [jsonw_number_st, h]
  · rcases h : jsonw_string t json with _ | ⟨j, v⟩ <;> simp [jsonw_string_st, h]
  · rcases h : jsonw_array t json with _ | ⟨j, _ | v⟩ <;> simp [jsonw_array_st, h]
  · rcases h : jsonw_object t json with _ | ⟨j, _ | v⟩ <;> simp [jsonw_object_st, h]
  · rcases h : jsonw_value t json with _ | ⟨j, k⟩ <;> simp [jsonw_value_st, h]

/-- C3, instantiated: at the input `@` all six combinators fail and each
pointee keeps its prior value. -/
theorem C3_failure_leaves_out_params_witness :
    (jsonw_boolean_st (str ("@")) (some 0) true).2 = true
    ∧ (jsonw_number_st (str ("@")) (some 0) (5, 1)).2 = (5, 1)
    ∧ (jsonw_string_st (str ("@")) (some 0) 7).2 = 7
    ∧ (jsonw_array_st (str ("@")) (some 0) 7).2 = 7
    ∧ (jsonw_object_st (str ("@")) (some 0) 7).2 = 7
    ∧ (jsonw_value_st (str ("@")) (some 0) JsonwTy.null).2 = JsonwTy.null :=
  let h := C3_failure_leaves_out_params (str ("@")) (some 0) true (5, 1) 7 7 7 JsonwTy.null
  ⟨h.1 (by decide), h.2.1 (by decide), h.2.2.1 (by decide), h.2.2.2.1 (by decide),
    h.2.2.2.2.1 (by decide), h.2.2.2.2.2 (by decide)⟩

/-- C4: jsonw_number consumes each literal whole (the returned cursor is the
input's length) and stores exactly the values 0, -3, 3.5, 100, -0.25, the
stored fraction denoting the exact decimal value in each case. -/
theorem C4_number_values :
    (jsonw_number (str ("0")) (some 0) = some (1, (0, 1))
      ∧ (str ("0")).length = 1 ∧ fracVal (0, 1) = 0)
    ∧ (jsonw_number (str ("-3")) (some 0) = some (2, (-3, 1))
      ∧ (str ("-3")).length = 2 ∧ fracVal (-3, 1) = -3)
    ∧ (jsonw_number (str ("3.5")) (some 0) = some (3, (35, 10))
      ∧ (str ("3.5")).length = 3 ∧ fracVal (35, 10) = 7 / 2)
    ∧ (jsonw_number (str ("1e2")) (some 0) = some (3, (100, 1))
      ∧ (str ("1e2")).length = 3 ∧ fracVal (100, 1) = 100)
    ∧ (jsonw_number (str ("-2.5e-1")) (some 0) = some (7, (-25, 100))
      ∧ (str ("-2.5e-1")).length = 7 ∧ fracVal (-25, 100) = -(1 / 4)) := by
  refine ⟨⟨by decide, by decide, ?_⟩, ⟨by decide, by decide, ?_⟩, ⟨by decide, by decide, ?_⟩,
    ⟨by decide, by decide, ?_⟩, ⟨by decide, by decide, ?_⟩⟩ <;> norm_num [fracVal]

/-- C5: jsonw_character decodes the escape for newline to byte 10 and the
hex escape u0041 to byte 65, the letter A; the non-ASCII hex escape u00e9
decodes to the sentinel byte 0; a bare byte below 0x20 (here the raw newline
byte) fails, and a string whose body holds such a byte fails as a whole. -/
theorem C5_character_decoding :
    jsonw_character (str ("\\n")) (some 0) = some (2, 10)
    ∧ jsonw_character (str ("\\u0041")) (some 0) = some (6, 65)
    ∧ jsonw_character (str ("\\u00e9")) (some 0) = some (6, 0)
    ∧ jsonw_character (str ("\n")) (some 0) = none
    ∧ jsonw_string (str ("\"\n\"")) (some 0) = none := by
  decide

/-- C6: on `\x7b"a":1,"b":[2,3]\x7d`, entering the object, looking up key
`b`, entering the array and indexing to element 1 reaches the number 3;
jsonw_find on the absent key `c` fails; and with duplicate keys
`\x7b"a":1,"a":2\x7d`, jsonw_find stops at the first occurrence (offset 1,
the first key), whose member value is 1. -/
theorem C6_navigation :
    jsonw_number (str ("\x7b\"a\":1,\"b\":[2,3]\x7d"))
        (jsonw_index (str ("\x7b\"a\":1,\"b\":[2,3]\x7d")) 1
          (jsonw_beginarr (str ("\x7b\"a\":1,\"b\":[2,3]\x7d"))
            (jsonw_lookup (str ("\x7b\"a\":1,\"b\":[2,3]\x7d")) (str ("b"))
              (jsonw_beginobj (str ("\x7b\"a\":1,\"b\":[2,3]\x7d")) (some 0))))) =
      some (15, (3, 1))
    ∧ jsonw_find (str ("\x7b\"a\":1,\"b\":[2,3]\x7d")) (str ("c"))
        (jsonw_beginobj (str ("\x7b\"a\":1,\"b\":[2,3]\x7d")) (some 0)) = none
    ∧ jsonw_find (str ("\x7b\"a\":1,\"a\":2\x7d")) (str ("a"))
        (jsonw_beginobj (str ("\x7b\"a\":1,\"a\":2\x7d")) (some 0)) = some 1
    ∧ jsonw_number (str ("\x7b\"a\":1,\"a\":2\x7d"))
        (jsonw_lookup (str ("\x7b\"a\":1,\"a\":2\x7d")) (str ("a"))
          (jsonw_beginobj (str ("\x7b\"a\":1,\"a\":2\x7d")) (some 0))) = some (6, (1, 1)) := by
  decide

/-- C7, amended: jsonw_element matches one value and then a mandatory value
separator: after any successful value parse, element is exactly jsonw_valuesep
at the value's end, so it consumes a following comma when one is present and
fails (rather than succeeding) when none is. -/
theorem C7_element_requires_separator (t : List Nat) (i j : Nat) (k : JsonwTy)
    (h : jsonw_value t (some i) = some (j, k)) :
    jsonw_element t (some i) = jsonw_valuesep t (some j) := by
  simp [jsonw_element, valCursor, h]

/-- C7, instantiated: on `1,2` the value ends at offset 1 and element
consumes the comma. -/
theorem C7_element_requires_separator_witness :
    jsonw_element (str ("1,2")) (some 0) = jsonw_valuesep (str ("1,2")) (some 1) :=
  C7_element_requires_separator (str ("1,2")) 0 1 JsonwTy.number (by decide)

/-- C7 as stated is false: on the input `1` a value parses at offset 0, yet
jsonw_element fails there, because no value separator follows. -/
theorem C7_counterexample :
    jsonw_value (str ("1")) (some 0) = some (1, JsonwTy.number)
    ∧ jsonw_element (str ("1")) (some 0) = none := by
  decide

/-- C8: for every buffer capacity `len > 0` and cursor, jsonw_unescape
stores some decoded bytes (at most `len - 1` of them) followed by one
terminating 0 byte, `len` stored bytes in all at most, never reaching offset
`len` of the buffer; and unescaping a 5-character string body into a 3-byte
buffer stores exactly 2 decoded bytes plus the terminator. -/
theorem C8_unescape_bounds :
    (∀ (t : List Nat) (len j : Nat), 0 < len →
      ∃ ys, (jsonw_unescape t len j).1 = ys ++ [0] ∧ ys.length ≤ len - 1
        ∧ (jsonw_unescape t len j).1.length ≤ len)
    ∧ jsonw_unescape (str ("abcde\"")) 3 0 = ([97, 98, 0], 2) := by
  refine ⟨?_, by decide⟩
  intro t len j hlen
  obtain ⟨ys, hys, hle⟩ := unescLoop_shape t len j
  have hys' : (jsonw_unescape t len j).1 = ys ++ [0] := hys
  refine ⟨ys, hys', hle, ?_⟩
  rw [hys']
  simp only [List.length_append, List.length_cons, List.length_nil]
  omega

/-- C8, instantiated at the 3-byte buffer. -/
theorem C8_unescape_bounds_witness :
    ∃ ys, (jsonw_unescape (str ("abcde\"")) 3 0).1 = ys ++ [0] ∧ ys.length ≤ 2
      ∧ (jsonw_unescape (str ("abcde\"")) 3 0).1.length ≤ 3 :=
  C8_unescape_bounds.1 (str ("abcde\"")) 3 0 (by decide)

/-- C9: whitespace skipping is idempotent (also through the failure
sentinel), never fails on a non-failure cursor, and returns the cursor
unchanged when the byte there is not space, tab, newline or carriage
return. -/
theorem C9_ws_idempotent_total (t : List Nat) (c : Option Nat) (i : Nat) :
    jsonw_ws t (jsonw_ws t c) = jsonw_ws t c
    ∧ (jsonw_ws t (some i)).isSome = true
    ∧ (isWsByte (byteAt t i) = false → jsonw_ws t (some i) = some i) := by
  refine ⟨?_, by simp [jsonw_ws], ?_⟩
  · rcases c with _ | i0
    · rfl
    · simp [jsonw_ws, skipWs_skipWs]
  · intro h
    simp [jsonw_ws, skipWs, skipWsF_of_not_ws t (t.length + 1) i h]

/-- C9, instantiated: at a non-whitespace byte the cursor is unchanged. -/
theorem C9_ws_idempotent_total_witness :
    jsonw_ws (str (" x")) (some 1) = some 1 :=
  (C9_ws_idempotent_total (str (" x")) (some 0) 1).2.2 (by decide)

/-- C10: with the empty key, jsonw_strcmp reports equality at every cursor
where character decoding immediately fails (the failure cursor included),
so jsonw_find with the empty key succeeds at once and returns its input
cursor unchanged whenever decoding fails just after the opening-quote match,
in particular at the closing brace of an empty object, which is no string
key at all. -/
theorem C10_empty_key_strcmp :
    (∀ (t : List Nat) (c : Option Nat),
      jsonw_character t c = none → jsonw_strcmp t [] c = 0)
    ∧ (∀ (t : List Nat) (json : Option Nat),
      jsonw_character t (jsonw_beginstr t json) = none → jsonw_find t [] json = json)
    ∧ jsonw_strcmp (str ("\x7b\x7d")) [] none = 0
    ∧ jsonw_find (str ("\x7b\x7d")) [] (some 1) = some 1 := by
  refine ⟨?_, ?_, by decide, by decide⟩
  · intro t c h
    simp [jsonw_strcmp, strcmpLoop, h]
  · intro t json h
    have hz : jsonw_strcmp t [] (jsonw_beginstr t json) = 0 := by
      simp [jsonw_strcmp, strcmpLoop, h]
    simp [jsonw_find, findLoopF, hz]

/-- C10, instantiated on the empty buffer, where decoding fails at once. -/
theorem C10_empty_key_strcmp_witness :
    jsonw_strcmp [] [] (some 0) = 0 ∧ jsonw_find [] [] (some 0) = some 0 :=
  ⟨C10_empty_key_strcmp.1 [] (some 0) (by decide),
    C10_empty_key_strcmp.2.1 [] (some 0) (by decide)⟩
